import Mathlib

/-!
Verification development for the `libmongo` wrapper library.

The repository contains several generations of a thin wrapper over a
document-database driver.  We shallowly embed the three generations that the
claims reference:

* `V1` — the mgo-based version (`lib.go`): a `MongoDb` struct holding an
  optional `*mgo.Session` and a lock-guarded `maxTimeMS` duration.
* `V2` — the qmgo-based version (`part_001`): a `MongoDb` struct holding an
  optional `*qmgo.Client`, a database name, and `maxTimeMS`; operations derive
  a `context.WithTimeout` context.
* `V3` — the mongo-driver-based version (`part_003`): a `MongoDb` struct whose
  `IsConnected` issues a `Ping`, plus the `toSlice` reflection helper.

Durations are modelled as `Int` nanoseconds (Go's `time.Duration` is an
`int64` count of nanoseconds).  Driver behaviour is modelled by explicit
response parameters, and each operation additionally reports the observable
actions it performed: lock acquisitions, reads/writes of `maxTimeMS`, the
timeout of the context it derived, and the driver calls it issued.
-/

namespace Libmongo

/-- Go `error` values that appear in the library: `fmt.Errorf` results, the
drivers' not-found sentinels, the exported invalid-argument sentinels, and
opaque driver failures.  `Option GoErr` stands for a Go `error` variable
(`none` = nil). -/
inductive GoErr
  | errorf (msg : String)
  | noSuchDocuments
  | interfaceSlice
  | interfaceIsNil
  | driver (msg : String)
  deriving DecidableEq, Repr

/-- One nanosecond-denominated second (`time.Second`). -/
def second : Int := 1000000000

/-- `mongoConnectionTimeout = 15 * time.Second` (`lib.go`, `part_001`, `part_003`). -/
def mongoConnectionTimeout : Int := 15 * second

/-- `mongoQueryTimeout = 30 * time.Second`. -/
def mongoQueryTimeout : Int := 30 * second

/-- `errorNotConnected = "DB is not connected"`. -/
def errorNotConnected : String := "DB is not connected"

/-- `errorNotValid = "Query is not valid"`. -/
def errorNotValid : String := "Query is not valid"

/-! ## Option composition (`options.go`) -/

/-- Read-preference modes of the driver's `readpref` package. -/
inductive ReadPrefMode
  | primary
  | primaryPreferred
  | secondary
  | secondaryPreferred
  | nearest
  deriving DecidableEq, Repr

/-- The driver's `options.ClientOptions` value, reduced to the fields the
wrapper's option functions touch.  In Go this object lives behind the pointer
stored in `MongoOptions.options`, so mutations of it are shared by every copy
of the `MongoOptions` struct. -/
structure ClientOptions where
  uri : Option String
  connectTimeoutMS : Option Int
  maxPoolSize : Option Nat
  readPreference : Option ReadPrefMode
  deriving DecidableEq, Repr

/-- The wrapper's `MongoOptions` struct: the pointer-held driver options
(`cell` models the pointed-to `*options.ClientOptions`), plus the by-value
fields `dbName` and `readPref`. -/
structure MongoOptions where
  cell : ClientOptions
  dbName : String
  readPref : ReadPrefMode
  deriving DecidableEq, Repr

/-- A Go configuration function `Options func(MongoOptions) MongoOptions`.
Such a function can mutate the shared `*options.ClientOptions` through the
pointer field (`cellEffect`) and returns a (possibly modified) copy of the
struct (`retFields` applied to the struct it received). -/
structure GoOption where
  cellEffect : ClientOptions → ClientOptions
  retFields : MongoOptions → MongoOptions

/-- `opt.apply(m)`: runs the configuration function.  The first component is
the state of the shared `ClientOptions` cell after the call; the second is the
`MongoOptions` value the function returns. -/
def GoOption.apply (f : GoOption) (m : MongoOptions) : ClientOptions × MongoOptions :=
  let cell := f.cellEffect m.cell
  (cell, f.retFields { m with cell := cell })

/-- `newOptions()` (`options.go` lines 24–30): driver options with
read preference `readpref.Secondary()`, database name `"test"`, and by-value
read preference `readpref.Secondary()`. -/
def newOptions : MongoOptions :=
  { cell := { uri := none, connectTimeoutMS := none, maxPoolSize := none,
              readPreference := some ReadPrefMode.secondary },
    dbName := "test",
    readPref := ReadPrefMode.secondary }

/-- The loop body of `Combine` (`options.go` lines 16–18):
`for i := len(opts) - 1; i >= 0; i-- { opts[i].apply(clientOpts) }`.
The value returned by `apply` is discarded (the source does not assign it);
only the mutation of the shared `ClientOptions` cell survives, so the local
`clientOpts` struct keeps its by-value fields and sees the new cell. -/
def combineLoop (opts : List GoOption) : Nat → MongoOptions → MongoOptions
  | 0, clientOpts => clientOpts
  | i + 1, clientOpts =>
    match opts.get? i with
    | some f =>
      let applied := f.apply clientOpts
      combineLoop opts i { clientOpts with cell := applied.1 }
    | none => combineLoop opts i clientOpts

/-- `Combine(opts ...MongoOption)` (`options.go` lines 14–20). -/
def Combine (opts : List GoOption) : MongoOptions :=
  combineLoop opts opts.length newOptions

/-- Folding the cell mutations of a list of options from the right: the
last-listed option acts first, the first-listed option acts last. -/
def applyCells (opts : List GoOption) (c : ClientOptions) : ClientOptions :=
  opts.foldr (fun f acc => f.cellEffect acc) c

/-- Modelled from the spec: the option constructor setting the connection URI
(its source file is not under `src/`; the spec lists the URI among the
accumulated connection parameters).  It updates the shared driver options. -/
def SetUri (u : String) : GoOption :=
  { cellEffect := fun c => { c with uri := some u }, retFields := id }

/-- Modelled from the spec: the option constructor setting the connect
timeout (source file not under `src/`). -/
def SetTimeout (d : Int) : GoOption :=
  { cellEffect := fun c => { c with connectTimeoutMS := some d }, retFields := id }

/-- Modelled from the spec: the option constructor setting the read
preference (source file not under `src/`). -/
def SetPreferred (m : ReadPrefMode) : GoOption :=
  { cellEffect := fun c => { c with readPreference := some m }, retFields := id }

/-- Modelled from the spec: the option constructor setting the maximum pool
size (source file not under `src/`). -/
def SetMaxPoolSize (n : Nat) : GoOption :=
  { cellEffect := fun c => { c with maxPoolSize := some n }, retFields := id }

/-! ## Observable actions of the operations -/

/-- Driver operations issued by the wrapper methods.  Numeric arguments index
per-document calls inside a loop. -/
inductive Call
  | insert (coll : String)
  | insertMany (coll : String)
  | bulkRun (coll : String)
  | find (coll : String)
  | findOne (coll : String)
  | aggregate (coll : String)
  | count (coll : String)
  | upsert (coll : String) (i : Nat)
  | updateOne (coll : String)
  | updateAll (coll : String)
  | removeAll (coll : String)
  | deleteOne (coll : String)
  | deleteMany (coll : String)
  deriving DecidableEq, Repr

/-- Observable events: lock operations on the handle's `RWMutex`, accesses to
the `maxTimeMS` field, driver session/client teardown, and driver calls
together with the error the driver reported for them. -/
inductive Ev
  | lock
  | unlock
  | rlock
  | runlock
  | readMaxTime
  | writeMaxTime (d : Int)
  | sessClose
  | clientClose
  | call (c : Call) (res : Option GoErr)
  deriving DecidableEq, Repr

/-- Result of running a Go method body: either a returned value or a runtime
panic (e.g. a nil-pointer dereference). -/
inductive GoResult (α : Type)
  | ret (v : α)
  | panicked
  deriving DecidableEq, Repr

/-- Uniform record for the outcome of a context-deriving operation (`V2` and
`V3`): the returned error, the optional boolean return (for `FindByID`), the
timeout of the `context.WithTimeout` context the operation derived (`none`
when it ran on `context.Background()`), the driver calls it made, and whether
the body panicked. -/
structure OpRet where
  err : Option GoErr := none
  retBool : Option Bool := none
  ctxTimeout : Option Int := none
  calls : List Call := []
  panicked : Bool := false
  deriving DecidableEq, Repr

/-! ## V1 — the mgo-based version (`lib.go`) -/

namespace V1

/-- The state of an `*mgo.Session`: whether `Close` has been called on it and
whether the underlying server connection is actually alive. -/
structure Session where
  closed : Bool
  alive : Bool
  deriving DecidableEq, Repr

/-- `MongoDb` (`lib.go` lines 19–24): an optional session pointer and the
lock-guarded query timeout. -/
structure MongoDb where
  sess : Option Session
  maxTimeMS : Int
  deriving DecidableEq, Repr

/-- Driver responses for the V1 operations, supplied as an oracle: the error
each delegated call reports. -/
structure Driver where
  insertErr : Option GoErr := none
  findErr : Option GoErr := none
  removeAllErr : Option GoErr := none
  upsertErr : Nat → Option GoErr := fun _ => none

/-- `IsConnected` (`lib.go` lines 45–47): `return db.sess != nil`. -/
def IsConnected (db : MongoDb) : Bool :=
  decide (db.sess ≠ none)

/-- Whether the handle's connection is actually alive: there is a session,
it has not been closed, and its server link is up.  (Specification-side
notion used to state claims about liveness.) -/
def connAlive (db : MongoDb) : Bool :=
  match db.sess with
  | none => false
  | some s => s.alive && !s.closed

/-- `SetMaxTimeMS` (`lib.go` lines 69–73): write `maxTimeMS` under the
exclusive lock. -/
def SetMaxTimeMS (db : MongoDb) (d : Int) : MongoDb × List Ev :=
  ({ db with maxTimeMS := d }, [Ev.lock, Ev.writeMaxTime d, Ev.unlock])

/-- `Disconnect` (`lib.go` lines 75–79): if `IsConnected()` then
`db.sess.Close()`.  `Close` marks the session closed but `db.sess` itself is
never set back to nil. -/
def Disconnect (db : MongoDb) : MongoDb × List Ev :=
  match db.sess with
  | none => (db, [])
  | some s => ({ db with sess := some { s with closed := true } }, [Ev.sessClose])

/-- `ConnectWithTimeout` (`lib.go` lines 57–67): timeouts below one second
are replaced by `mongoConnectionTimeout` before dialing.  The second
component records the arguments of the `mgo.DialWithTimeout` call; the dial's
outcome is supplied as `dialResult`. -/
def ConnectWithTimeout (db : MongoDb) (dsn : String) (timeout : Int)
    (dialResult : Option Session) : MongoDb × String × Int :=
  let t := if timeout < second then mongoConnectionTimeout else timeout
  ({ db with sess := dialResult }, dsn, t)

/-- `Insert` (`lib.go` lines 114–124): not-connected guard, then a session
copy and the driver insert. -/
def Insert (db : MongoDb) (coll : String) (drv : Driver) :
    GoResult (Option GoErr) × List Ev :=
  if ¬ IsConnected db then
    (GoResult.ret (some (GoErr.errorf errorNotConnected)), [])
  else
    (GoResult.ret drv.insertErr, [Ev.call (Call.insert coll) drv.insertErr])

/-- `Find` (`lib.go` lines 169–185): not-connected guard, then
`...Find(query).SetMaxTime(db.maxTimeMS).All(v)`.  The read of `maxTimeMS`
happens without taking the read lock. -/
def Find (db : MongoDb) (coll : String) (drv : Driver) :
    GoResult (Option GoErr) × List Ev :=
  if ¬ IsConnected db then
    (GoResult.ret (some (GoErr.errorf errorNotConnected)), [])
  else
    (GoResult.ret drv.findErr, [Ev.readMaxTime, Ev.call (Call.find coll) drv.findErr])

/-- `UpsertMulti` (`lib.go` lines 434–457): guards, then a loop issuing a
per-document upsert whose result is not checked, and an unconditional
`return nil`. -/
def UpsertMulti (db : MongoDb) (coll : String) (id v : List String) (drv : Driver) :
    GoResult (Option GoErr) × List Ev :=
  if ¬ IsConnected db then
    (GoResult.ret (some (GoErr.errorf errorNotConnected)), [])
  else if id.length ≠ v.length then
    (GoResult.ret (some (GoErr.errorf errorNotValid)), [])
  else
    (GoResult.ret none,
     (List.range id.length).map (fun i => Ev.call (Call.upsert coll i) (drv.upsertErr i)))

/-- `RemoveAll` (`lib.go` lines 473–481): there is no not-connected guard;
`db.sess.Copy()` dereferences the session pointer, so on a nil session the
method panics instead of returning an error. -/
def RemoveAll (db : MongoDb) (coll : String) (drv : Driver) :
    GoResult (Option GoErr) × List Ev :=
  match db.sess with
  | none => (GoResult.panicked, [])
  | some _ =>
    (GoResult.ret drv.removeAllErr, [Ev.call (Call.removeAll coll) drv.removeAllErr])

end V1

/-! ## V2 — the qmgo-based version (`part_001`)

Operation arguments that carry documents, filters, sort orders, limits or
offsets do not influence the observables verified here (returned error,
derived context timeout, driver calls); they are elided from the embedded
signatures.  `e` always stands for the error the delegated driver call
reports. -/

namespace V2

/-- The state of a `*qmgo.Client`: whether `Close` has been called on it and
whether the underlying server connection is actually alive. -/
structure Client where
  closed : Bool
  alive : Bool
  deriving DecidableEq, Repr

/-- `MongoDb` (`part_001` lines 22–28). -/
structure MongoDb where
  client : Option Client
  database : String
  maxTimeMS : Int
  deriving DecidableEq, Repr

/-- The qmgo driver's not-found sentinel `qmgo.ErrNoSuchDocuments`. -/
def qmgoErrNoSuchDocuments : GoErr := GoErr.noSuchDocuments

/-- `ErrNoSuchDocuments` (`part_001` line 36): the library's exported value is
an alias of the driver's sentinel, `ErrNoSuchDocuments = qmgo.ErrNoSuchDocuments`. -/
def ErrNoSuchDocuments : GoErr := qmgoErrNoSuchDocuments

/-- `IsConnected` (`part_001` lines 73–75): `return db.client != nil`. -/
def IsConnected (db : MongoDb) : Bool :=
  decide (db.client ≠ none)

/-- Whether the handle's connection is actually alive (specification-side
notion used to state claims about liveness). -/
def connAlive (db : MongoDb) : Bool :=
  match db.client with
  | none => false
  | some c => c.alive && !c.closed

/-- `SetMaxTimeMS` (`part_001` lines 77–81). -/
def SetMaxTimeMS (db : MongoDb) (d : Int) : MongoDb × List Ev :=
  ({ db with maxTimeMS := d }, [Ev.lock, Ev.writeMaxTime d, Ev.unlock])

/-- qmgo `Client.Close`: marks the client closed on the first call; a second
call reports the mongo driver's already-disconnected error. -/
def closeClient (c : Client) : Option GoErr × Client :=
  if c.closed then (some (GoErr.driver "client is disconnected"), c)
  else (none, { c with closed := true })

/-- `Disconnect` (`part_001` lines 83–89): if `IsConnected()`, `Close` the
client and `panic(err)` when `Close` returns an error.  The client pointer is
never cleared, so `IsConnected` stays true afterwards. -/
def Disconnect (db : MongoDb) : GoResult MongoDb × List Ev :=
  match db.client with
  | none => (GoResult.ret db, [])
  | some c =>
    match closeClient c with
    | (some _, _) => (GoResult.panicked, [Ev.clientClose])
    | (none, c2) => (GoResult.ret { db with client := some c2 }, [Ev.clientClose])

/-- `Insert` (`part_001` lines 91–101): guard, context with `db.maxTimeMS`,
`InsertOne`. -/
def Insert (db : MongoDb) (coll : String) (e : Option GoErr) : OpRet :=
  if ¬ IsConnected db then { err := some (GoErr.errorf errorNotConnected) }
  else { err := e, ctxTimeout := some db.maxTimeMS, calls := [Call.insert coll] }

/-- `InsertMany` (`part_001` lines 103–113). -/
def InsertMany (db : MongoDb) (coll : String) (e : Option GoErr) : OpRet :=
  if ¬ IsConnected db then { err := some (GoErr.errorf errorNotConnected) }
  else { err := e, ctxTimeout := some db.maxTimeMS, calls := [Call.insertMany coll] }

/-- `InsertBulk` (`part_001` lines 115–131). -/
def InsertBulk (db : MongoDb) (coll : String) (e : Option GoErr) : OpRet :=
  if ¬ IsConnected db then { err := some (GoErr.errorf errorNotConnected) }
  else { err := e, ctxTimeout := some db.maxTimeMS, calls := [Call.bulkRun coll] }

/-- `Find` (`part_001` lines 133–147). -/
def Find (db : MongoDb) (coll : String) (e : Option GoErr) : OpRet :=
  if ¬ IsConnected db then { err := some (GoErr.errorf errorNotConnected) }
  else { err := e, ctxTimeout := some db.maxTimeMS, calls := [Call.find coll] }

/-- `Pipe` (`part_001` lines 149–158). -/
def Pipe (db : MongoDb) (coll : String) (e : Option GoErr) : OpRet :=
  if ¬ IsConnected db then { err := some (GoErr.errorf errorNotConnected) }
  else { err := e, ctxTimeout := some db.maxTimeMS, calls := [Call.aggregate coll] }

/-- `PipeOne` (`part_001` lines 160–169). -/
def PipeOne (db : MongoDb) (coll : String) (e : Option GoErr) : OpRet :=
  if ¬ IsConnected db then { err := some (GoErr.errorf errorNotConnected) }
  else { err := e, ctxTimeout := some db.maxTimeMS, calls := [Call.aggregate coll] }

/-- `FindByID` (`part_001` lines 171–180): returns `false` when not
connected; otherwise returns `qmgo.ErrNoSuchDocuments != Find(...).One(v)`,
i.e. `true` for every driver outcome other than the not-found sentinel. -/
def FindByID (db : MongoDb) (coll : String) (e : Option GoErr) : OpRet :=
  if ¬ IsConnected db then { retBool := some false }
  else { retBool := some (decide (e ≠ some qmgoErrNoSuchDocuments)),
         ctxTimeout := some db.maxTimeMS, calls := [Call.findOne coll] }

/-- `FindAll` (`part_001` lines 182–190). -/
def FindAll (db : MongoDb) (coll : String) (e : Option GoErr) : OpRet :=
  if ¬ IsConnected db then { err := some (GoErr.errorf errorNotConnected) }
  else { err := e, ctxTimeout := some db.maxTimeMS, calls := [Call.find coll] }

/-- `FindWithSelectAll` (`part_001` lines 192–201). -/
def FindWithSelectAll (db : MongoDb) (coll : String) (e : Option GoErr) : OpRet :=
  if ¬ IsConnected db then { err := some (GoErr.errorf errorNotConnected) }
  else { err := e, ctxTimeout := some db.maxTimeMS, calls := [Call.find coll] }

/-- `FindWithQuery` (`part_001` lines 203–212): delegates and returns the
driver's error unchanged. -/
def FindWithQuery (db : MongoDb) (coll : String) (e : Option GoErr) : OpRet :=
  if ¬ IsConnected db then { err := some (GoErr.errorf errorNotConnected) }
  else { err := e, ctxTimeout := some db.maxTimeMS, calls := [Call.findOne coll] }

/-- `FindWithQuerySortOne` (`part_001` lines 214–224). -/
def FindWithQuerySortOne (db : MongoDb) (coll : String) (e : Option GoErr) : OpRet :=
  if ¬ IsConnected db then { err := some (GoErr.errorf errorNotConnected) }
  else { err := e, ctxTimeout := some db.maxTimeMS, calls := [Call.findOne coll] }

/-- `FindWithQuerySortAll` (`part_001` lines 226–236). -/
def FindWithQuerySortAll (db : MongoDb) (coll : String) (e : Option GoErr) : OpRet :=
  if ¬ IsConnected db then { err := some (GoErr.errorf errorNotConnected) }
  else { err := e, ctxTimeout := some db.maxTimeMS, calls := [Call.find coll] }

/-- `FindWithQuerySortLimitAll` (`part_001` lines 238–248). -/
def FindWithQuerySortLimitAll (db : MongoDb) (coll : String) (e : Option GoErr) : OpRet :=
  if ¬ IsConnected db then { err := some (GoErr.errorf errorNotConnected) }
  else { err := e, ctxTimeout := some db.maxTimeMS, calls := [Call.find coll] }

/-- `FindWithQueryOne` (`part_001` lines 250–258). -/
def FindWithQueryOne (db : MongoDb) (coll : String) (e : Option GoErr) : OpRet :=
  if ¬ IsConnected db then { err := some (GoErr.errorf errorNotConnected) }
  else { err := e, ctxTimeout := some db.maxTimeMS, calls := [Call.findOne coll] }

/-- `FindWithQueryAll` (`part_001` lines 260–267). -/
def FindWithQueryAll (db : MongoDb) (coll : String) (e : Option GoErr) : OpRet :=
  if ¬ IsConnected db then { err := some (GoErr.errorf errorNotConnected) }
  else { err := e, ctxTimeout := some db.maxTimeMS, calls := [Call.find coll] }

/-- `FindWithQuerySortLimitOffsetAll` (`part_001` lines 269–277). -/
def FindWithQuerySortLimitOffsetAll (db : MongoDb) (coll : String) (e : Option GoErr) : OpRet :=
  if ¬ IsConnected db then { err := some (GoErr.errorf errorNotConnected) }
  else { err := e, ctxTimeout := some db.maxTimeMS, calls := [Call.find coll] }

/-- `FindWithQuerySortLimitOffsetTotalAll` (`part_001` lines 279–292): the
only operation whose context uses `db.maxTimeMS * 2`; when `total != nil` it
first issues a `Count` whose error is discarded. -/
def FindWithQuerySortLimitOffsetTotalAll (db : MongoDb) (coll : String)
    (total : Bool) (e : Option GoErr) : OpRet :=
  if ¬ IsConnected db then { err := some (GoErr.errorf errorNotConnected) }
  else { err := e, ctxTimeout := some (db.maxTimeMS * 2),
         calls := (if total then [Call.count coll] else []) ++ [Call.find coll] }

/-- `Count` (`part_001` lines 294–301). -/
def Count (db : MongoDb) (coll : String) (e : Option GoErr) : OpRet :=
  if ¬ IsConnected db then { err := some (GoErr.errorf errorNotConnected) }
  else { err := e, ctxTimeout := some db.maxTimeMS, calls := [Call.count coll] }

/-- `Update` (`part_001` lines 303–311). -/
def Update (db : MongoDb) (coll : String) (e : Option GoErr) : OpRet :=
  if ¬ IsConnected db then { err := some (GoErr.errorf errorNotConnected) }
  else { err := e, ctxTimeout := some db.maxTimeMS, calls := [Call.updateOne coll] }

/-- `UpdateWithQuery` (`part_001` lines 313–328): delegates to `UpdateAll`. -/
def UpdateWithQuery (db : MongoDb) (coll : String) (e : Option GoErr) : OpRet :=
  if ¬ IsConnected db then { err := some (GoErr.errorf errorNotConnected) }
  else { err := e, ctxTimeout := some db.maxTimeMS, calls := [Call.updateAll coll] }

/-- `UpdateWithQueryAll` (`part_001` lines 330–348). -/
def UpdateWithQueryAll (db : MongoDb) (coll : String) (e : Option GoErr) : OpRet :=
  if ¬ IsConnected db then { err := some (GoErr.errorf errorNotConnected) }
  else { err := e, ctxTimeout := some db.maxTimeMS, calls := [Call.updateAll coll] }

/-- `Upsert` (`part_001` lines 350–357). -/
def Upsert (db : MongoDb) (coll : String) (e : Option GoErr) : OpRet :=
  if ¬ IsConnected db then { err := some (GoErr.errorf errorNotConnected) }
  else { err := e, ctxTimeout := some db.maxTimeMS, calls := [Call.upsert coll 0] }

/-- `UpsertWithQuery` (`part_001` lines 359–368). -/
def UpsertWithQuery (db : MongoDb) (coll : String) (e : Option GoErr) : OpRet :=
  if ¬ IsConnected db then { err := some (GoErr.errorf errorNotConnected) }
  else { err := e, ctxTimeout := some db.maxTimeMS, calls := [Call.upsert coll 0] }

/-- `UpsertMulti` (`part_001` lines 370–391): guards, then a loop whose
per-document upsert results are not checked, and an unconditional
`return nil`. -/
def UpsertMulti (db : MongoDb) (coll : String) (id v : List String) : OpRet :=
  if ¬ IsConnected db then { err := some (GoErr.errorf errorNotConnected) }
  else if id.length ≠ v.length then { err := some (GoErr.errorf errorNotValid) }
  else { err := none, ctxTimeout := some db.maxTimeMS,
         calls := (List.range id.length).map (fun i => Call.upsert coll i) }

/-- `Remove` (`part_001` lines 393–401): the driver call runs on
`context.Background()` — no bounded context is derived. -/
def Remove (db : MongoDb) (coll : String) (e : Option GoErr) : OpRet :=
  if ¬ IsConnected db then { err := some (GoErr.errorf errorNotConnected) }
  else { err := e, ctxTimeout := none, calls := [Call.removeAll coll] }

/-- `RemoveAll` (`part_001` lines 403–409): there is no not-connected guard.
The bounded context is derived first; then `db.client.Database(...)`
dereferences the client pointer, so on a nil client the method panics. -/
def RemoveAll (db : MongoDb) (coll : String) (e : Option GoErr) : OpRet :=
  match db.client with
  | none => { ctxTimeout := some db.maxTimeMS, panicked := true }
  | some _ => { err := e, ctxTimeout := some db.maxTimeMS, calls := [Call.removeAll coll] }

/-- `RemoveWithQuery` (`part_001` lines 411–420). -/
def RemoveWithQuery (db : MongoDb) (coll : String) (e : Option GoErr) : OpRet :=
  if ¬ IsConnected db then { err := some (GoErr.errorf errorNotConnected) }
  else { err := e, ctxTimeout := some db.maxTimeMS, calls := [Call.removeAll coll] }

/-- `RemoveWithIDs` (`part_001` lines 422–431): builds the `$in` filter from
`ids` without any sequence validation. -/
def RemoveWithIDs (db : MongoDb) (coll : String) (e : Option GoErr) : OpRet :=
  if ¬ IsConnected db then { err := some (GoErr.errorf errorNotConnected) }
  else { err := e, ctxTimeout := some db.maxTimeMS, calls := [Call.removeAll coll] }

end V2

/-! ## V3 — the mongo-driver-based version (`part_003`) -/

/-- A Go `interface{}` value as seen by `reflect` in `toSlice`: a possibly-nil
slice, or a non-slice value (plain values and the nil interface). -/
inductive GoValue
  | nilInterface
  | str (s : String)
  | intVal (n : Int)
  | slice (elems : Option (List GoValue))

/-- Modelled from the spec: the exported sentinel `ErrInterfaceSlice`
(its declaration is not under `src/`; `part_003`'s `toSlice` and the tests
reference it as the invalid-argument error for a non-sequence target). -/
def ErrInterfaceSlice : GoErr := GoErr.interfaceSlice

/-- Modelled from the spec: the exported sentinel `ErrInterfaceIsNil`
(declaration not under `src/`; returned for an unset (nil) sequence). -/
def ErrInterfaceIsNil : GoErr := GoErr.interfaceIsNil

namespace V3

/-- `toSlice` (`part_003` lines 681–696): reject non-slice values with
`ErrInterfaceSlice`, nil slices with `ErrInterfaceIsNil`, and otherwise
return the elements. -/
def toSlice : GoValue → Except GoErr (List GoValue)
  | GoValue.slice none => Except.error ErrInterfaceIsNil
  | GoValue.slice (some xs) => Except.ok xs
  | _ => Except.error ErrInterfaceSlice

/-- The mongo driver's not-found sentinel `mongo.ErrNoDocuments`. -/
def mongoErrNoDocuments : GoErr := GoErr.noSuchDocuments

/-- The state of a `*mongo.Client`, reduced to the observable this version's
code inspects: the result of `Ping` (`none` when the connection is alive — the
probe succeeds exactly on a live connection). -/
structure Client where
  pingError : Option GoErr
  deriving DecidableEq, Repr

/-- `MongoDb` (`part_003` lines 23–30). -/
structure MongoDb where
  client : Option Client
  dbName : String
  maxTimeMS : Int
  deriving DecidableEq, Repr

/-- `IsConnected` (`part_003` lines 67–69):
`return db.client.Ping(db.ctx, nil) != nil` — the comparison is against the
*error* returned by `Ping`, and on a nil client the `Ping` call dereferences
a nil pointer. -/
def IsConnected (db : MongoDb) : GoResult Bool :=
  match db.client with
  | none => GoResult.panicked
  | some c => GoResult.ret (decide (c.pingError ≠ none))

/-- Whether the handle's connection is actually alive: the liveness probe
succeeds (specification-side notion used to state claims about liveness). -/
def connAlive (db : MongoDb) : Bool :=
  match db.client with
  | none => false
  | some c => decide (c.pingError = none)

/-- `ConnectWithTimeout` (`part_003` lines 75–89): timeouts below one second
are replaced by `mongoConnectionTimeout`, then the client options passed to
`mongo.Connect` are built with
`Combine(SetUri(dsn), SetTimeout(timeout), SetPreferred(mode), SetMaxPoolSize(20))`.
The result is the `MongoOptions` value used for the dial. -/
def ConnectWithTimeout (dsn : String) (timeout : Int) (mode : ReadPrefMode) :
    MongoOptions :=
  let t := if timeout < second then mongoConnectionTimeout else timeout
  Combine [SetUri dsn, SetTimeout t, SetPreferred mode, SetMaxPoolSize 20]

/-- `Insert` (`part_003` lines 138–150): guard (via the inverted
`IsConnected`), `toSlice` validation of the variadic `docs` slice, then
`InsertMany`.  `docs` is the variadic `[]interface{}` slice (`none` = nil). -/
def Insert (db : MongoDb) (coll : String) (docs : Option (List GoValue))
    (e : Option GoErr) : OpRet :=
  match db.client with
  | none => { panicked := true }
  | some c =>
    if c.pingError = none then { err := some (GoErr.errorf errorNotConnected) }
    else
      match toSlice (GoValue.slice docs) with
      | Except.error te => { err := some te }
      | Except.ok _ => { err := e, calls := [Call.insertMany coll] }

/-- `FindByID` (`part_003` lines 264–281): returns `false` when the guard
fails; otherwise compares `res.Err()` against `mongo.ErrNoDocuments` and
returns whether decoding succeeded. -/
def FindByID (db : MongoDb) (coll : String) (resErr decodeErr : Option GoErr) : OpRet :=
  match db.client with
  | none => { panicked := true }
  | some c =>
    if c.pingError = none then { retBool := some false }
    else if resErr ≠ some mongoErrNoDocuments then
      { retBool := some (decide (decodeErr = none)), calls := [Call.findOne coll] }
    else
      { retBool := some false, calls := [Call.findOne coll] }

/-- `UpsertMulti` (`part_003` lines 540–561): guards, then a loop assigning
`_, err = UpdateOne(...)` on every iteration, so only the error of the *last*
per-document upsert is returned.  `drv i` is the error of the `i`-th upsert. -/
def UpsertMulti (db : MongoDb) (coll : String) (id v : List String)
    (drv : Nat → Option GoErr) : OpRet :=
  match db.client with
  | none => { panicked := true }
  | some c =>
    if c.pingError = none then { err := some (GoErr.errorf errorNotConnected) }
    else if id.length ≠ v.length then { err := some (GoErr.errorf errorNotValid) }
    else
      { err := (List.range id.length).foldl (fun _ i => drv i) none,
        calls := (List.range id.length).map (fun _ => Call.updateOne coll) }

/-- `RemoveWithIDs` (`part_003` lines 593–606): the (duplicated) guard, then
the `$in` filter is built from `ids` and `DeleteMany` is called — there is no
sequence validation of `ids`. -/
def RemoveWithIDs (db : MongoDb) (coll : String) (_ids : GoValue)
    (e : Option GoErr) : OpRet :=
  match db.client with
  | none => { panicked := true }
  | some c =>
    if c.pingError = none then { err := some (GoErr.errorf errorNotConnected) }
    else { err := e, calls := [Call.deleteMany coll] }

end V3

/-! ## Concrete fixtures used by the theorems -/

/-- V1 driver oracle on which every call succeeds. -/
def drv0 : V1.Driver := {}

/-- V1 driver oracle whose per-document upserts all fail. -/
def drvUpsertFail : V1.Driver :=
  { upsertErr := fun _ => some (GoErr.driver "upsert failed") }

/-- Per-document error oracle: the first upsert fails, later ones succeed. -/
def drvFirstFails : Nat → Option GoErr :=
  fun i => if i = 0 then some (GoErr.driver "upsert failed") else none

/-- A live, open mgo session. -/
def sessLive : V1.Session := { closed := false, alive := true }

/-- An open mgo session whose server link has dropped. -/
def sessDead : V1.Session := { closed := false, alive := false }

/-- A never-connected V1 handle (`MongoDb{}` with the default query timeout). -/
def dbV1None : V1.MongoDb := { sess := none, maxTimeMS := mongoQueryTimeout }

/-- A connected V1 handle. -/
def dbV1Conn : V1.MongoDb := { sess := some sessLive, maxTimeMS := mongoQueryTimeout }

/-- A V1 handle whose session is present but whose connection has dropped. -/
def dbV1Dead : V1.MongoDb := { sess := some sessDead, maxTimeMS := mongoQueryTimeout }

/-- A live, open qmgo client. -/
def clientLive : V2.Client := { closed := false, alive := true }

/-- A qmgo client on which `Close` has already been called. -/
def clientClosed : V2.Client := { closed := true, alive := true }

/-- A never-connected V2 handle. -/
def dbV2None : V2.MongoDb :=
  { client := none, database := "test", maxTimeMS := mongoQueryTimeout }

/-- A connected V2 handle. -/
def dbV2Conn : V2.MongoDb :=
  { client := some clientLive, database := "test", maxTimeMS := mongoQueryTimeout }

/-- A V2 handle after a successful `Disconnect`. -/
def dbV2Closed : V2.MongoDb :=
  { client := some clientClosed, database := "test", maxTimeMS := mongoQueryTimeout }

/-- A mongo-driver client whose liveness probe fails. -/
def clientSick : V3.Client := { pingError := some (GoErr.driver "ping failed") }

/-- A V3 handle whose client is present but whose `Ping` fails — the only
kind of handle that passes this version's inverted connectivity guard. -/
def dbV3Sick : V3.MongoDb :=
  { client := some clientSick, dbName := "test", maxTimeMS := mongoQueryTimeout }

/-! ## Theorems -/

/-- The downward `for` loop of `Combine` processes exactly the first `i`
options, applying their cell mutations from the highest index to index 0, and
never changes the by-value fields of the local `clientOpts` struct. -/
theorem combineLoop_take (opts : List GoOption) :
    ∀ (i : Nat) (m : MongoOptions),
      combineLoop opts i m = { m with cell := applyCells (opts.take i) m.cell } := by
  intro i
  induction i with
  | zero =>
    intro m
    simp [combineLoop, applyCells]
  | succ k ih =>
    intro m
    cases h : opts.get? k with
    | none =>
      have h2 : opts[k]? = none := by
        rw [← List.get?_eq_getElem?]
        exact h
      have htake : opts.take (k + 1) = opts.take k := by
        simp [List.take_succ, h2]
      simp only [combineLoop, h, htake, ih]
    | some f =>
      have h2 : opts[k]? = some f := by
        rw [← List.get?_eq_getElem?]
        exact h
      have htake : opts.take (k + 1) = opts.take k ++ [f] := by
        simp [List.take_succ, h2]
      simp only [combineLoop, h, ih, htake, applyCells, List.foldr_append,
        GoOption.apply, List.foldr_cons, List.foldr_nil]

/-- `Combine` leaves the by-value fields of the base default untouched and
applies the options' mutations of the shared driver options from the last
list element to the first. -/
theorem Combine_eq (opts : List GoOption) :
    Combine opts
      = { cell := applyCells opts newOptions.cell,
          dbName := "test", readPref := ReadPrefMode.secondary } := by
  rw [Combine, combineLoop_take opts opts.length newOptions, List.take_length]
  rfl

/-- C2 counterexample: the claim states that the base default configuration's
read preference is secondary-preferred, but the base default built by
`Combine`/`newOptions` carries the `secondary` read preference, which is a
different mode. -/
theorem claim2_combine_counterexample :
    (Combine []).readPref = ReadPrefMode.secondary
    ∧ ReadPrefMode.secondary ≠ ReadPrefMode.secondaryPreferred :=
  ⟨rfl, by decide⟩

/-- C2 (amended): `Combine` applies the supplied configuration functions in
reverse order (the last-listed option acts first) to the base default whose
read preference is *secondary* and whose database name is `"test"`; because
the struct returned by each `apply` is discarded, options act only through
the shared driver `ClientOptions`, and the by-value fields keep their
defaults; for two options setting the same driver-options field, the
earlier-listed one determines the final value. -/
theorem claim2_combine_amended :
    (∀ opts : List GoOption,
       Combine opts
         = { cell := applyCells opts newOptions.cell,
             dbName := "test", readPref := ReadPrefMode.secondary })
    ∧ (∀ u1 u2 : String, (Combine [SetUri u1, SetUri u2]).cell.uri = some u1) := by
  refine ⟨Combine_eq, ?_⟩
  intro u1 u2
  rfl

/-- C3 counterexample: a handle holding a non-null session whose server link
has dropped is reported as connected — `IsConnected` is a null check, not a
liveness probe. -/
theorem claim3_isConnected_counterexample :
    V1.IsConnected dbV1Dead = true ∧ V1.connAlive dbV1Dead = false := by
  decide

/-- C3 (amended): the mgo and qmgo versions' `IsConnected` merely test that
the session/client reference is non-null, so a dropped connection behind a
non-null reference is still reported as connected; the mongo-driver version
issues a `Ping` but returns `true` exactly when the probe *fails*. -/
theorem claim3_isConnected_amended :
    (∀ db : V1.MongoDb, V1.IsConnected db = db.sess.isSome)
    ∧ (∀ db : V2.MongoDb, V2.IsConnected db = db.client.isSome)
    ∧ (∀ (db : V3.MongoDb) (c : V3.Client), db.client = some c →
        (V3.IsConnected db = GoResult.ret true ↔ V3.connAlive db = false)) := by
  refine ⟨?_, ?_, ?_⟩
  · intro db
    cases h : db.sess <;> simp [V1.IsConnected, h]
  · intro db
    cases h : db.client <;> simp [V2.IsConnected, h]
  · intro db c h
    cases hp : c.pingError <;>
      simp [V3.IsConnected, V3.connAlive, h, hp]

/-- C3 witness: the amended statement instantiated at a handle whose liveness
probe fails. -/
theorem claim3_isConnected_witness :
    V3.IsConnected dbV3Sick = GoResult.ret true ↔ V3.connAlive dbV3Sick = false :=
  claim3_isConnected_amended.2.2 dbV3Sick clientSick rfl

/-- C1 (code bug): on a never-connected handle `Insert` returns the
"DB is not connected" error without any driver call, but `RemoveAll` — the
one operation missing the guard — dereferences the nil session/client and
panics instead of returning `NotConnectedError` (shown for the mgo and the
qmgo versions). -/
theorem claim1_removeAll_missing_guard :
    V1.Insert dbV1None "coll" drv0
      = (GoResult.ret (some (GoErr.errorf errorNotConnected)), [])
    ∧ V1.RemoveAll dbV1None "coll" drv0 = (GoResult.panicked, [])
    ∧ V2.RemoveAll dbV2None "coll" none
      = { ctxTimeout := some mongoQueryTimeout, panicked := true } := by
  refine ⟨by decide, by decide, by decide⟩

/-- C4 counterexample: a second `Disconnect` is not a no-op.  In the mgo
version it issues the driver `Close` call again (the session pointer is never
cleared, so the guard still passes); in the qmgo version the second `Close`
reports an already-disconnected error and `Disconnect` panics. -/
theorem claim4_disconnect_counterexample :
    (V1.Disconnect (V1.Disconnect dbV1Conn).1).2 = [Ev.sessClose]
    ∧ (V2.Disconnect dbV2Conn).1 = GoResult.ret dbV2Closed
    ∧ V2.Disconnect dbV2Closed = (GoResult.panicked, [Ev.clientClose]) := by
  refine ⟨by decide, by decide, by decide⟩

/-- C4 (amended): `Disconnect` is a no-op only on a handle whose
session/client reference is nil (never connected).  Whenever the reference is
non-null — including after a previous `Disconnect`, since `Close` does not
clear it — `Disconnect` calls the driver's `Close` again; in the qmgo version
the repeated call panics because `Close` reports an error for an
already-closed client. -/
theorem claim4_disconnect_amended :
    (∀ db : V1.MongoDb, db.sess = none → V1.Disconnect db = (db, []))
    ∧ (∀ (db : V1.MongoDb) (s : V1.Session), db.sess = some s →
        V1.Disconnect db
          = ({ db with sess := some { s with closed := true } }, [Ev.sessClose]))
    ∧ (∀ (db : V2.MongoDb) (c : V2.Client), db.client = some c → c.closed = true →
        V2.Disconnect db = (GoResult.panicked, [Ev.clientClose])) := by
  refine ⟨?_, ?_, ?_⟩
  · intro db h
    simp [V1.Disconnect, h]
  · intro db s h
    simp [V1.Disconnect, h]
  · intro db c h hc
    simp [V2.Disconnect, V2.closeClient, h, hc]

/-- C4 witness: the amended statement instantiated at a never-connected
handle and at an already-disconnected handle. -/
theorem claim4_disconnect_witness :
    V1.Disconnect dbV1None = (dbV1None, [])
    ∧ V2.Disconnect dbV2Closed = (GoResult.panicked, [Ev.clientClose]) :=
  ⟨claim4_disconnect_amended.1 dbV1None rfl,
   claim4_disconnect_amended.2.2 dbV2Closed clientClosed rfl rfl⟩

/-- C5 counterexample: the library defines no not-found value of its own —
its exported `ErrNoSuchDocuments` *is* the driver's sentinel — and a read
operation on a connected handle returns the driver's sentinel itself, not a
distinct library error. -/
theorem claim5_notfound_counterexample :
    V2.ErrNoSuchDocuments = V2.qmgoErrNoSuchDocuments
    ∧ (V2.FindWithQuery dbV2Conn "coll" (some V2.qmgoErrNoSuchDocuments)).err
        = some V2.qmgoErrNoSuchDocuments := by
  refine ⟨rfl, by decide⟩

/-- C5 (amended): on a connected handle, read operations return the driver's
error unchanged; the library merely re-exports the driver's not-found
sentinel under the name `ErrNoSuchDocuments` (the identical value); `FindByID`
does not return an error at all — the qmgo version yields `false` exactly on
the not-found sentinel, and the mongo-driver version yields `true` exactly
when the result is not the sentinel and decoding succeeds. -/
theorem claim5_notfound_amended :
    V2.ErrNoSuchDocuments = V2.qmgoErrNoSuchDocuments
    ∧ (∀ (db : V2.MongoDb) (coll : String) (e : Option GoErr),
        V2.IsConnected db = true → (V2.FindWithQuery db coll e).err = e)
    ∧ (∀ (db : V2.MongoDb) (coll : String) (e : Option GoErr),
        V2.IsConnected db = true →
          ((V2.FindByID db coll e).retBool = some false
            ↔ e = some V2.qmgoErrNoSuchDocuments))
    ∧ (∀ (db : V3.MongoDb) (c : V3.Client) (coll : String)
          (resErr decodeErr : Option GoErr),
        db.client = some c → c.pingError ≠ none →
          ((V3.FindByID db coll resErr decodeErr).retBool = some true
            ↔ (resErr ≠ some V3.mongoErrNoDocuments ∧ decodeErr = none))) := by
  refine ⟨rfl, ?_, ?_, ?_⟩
  · intro db coll e h
    simp [V2.FindWithQuery, h]
  · intro db coll e h
    by_cases he : e = some V2.qmgoErrNoSuchDocuments <;>
      simp [V2.FindByID, h, he]
  · intro db c coll resErr decodeErr h hp
    by_cases hr : resErr = some V3.mongoErrNoDocuments
    · simp [V3.FindByID, h, hp, hr]
    · by_cases hd : decodeErr = none <;> simp [V3.FindByID, h, hp, hr, hd]

/-- C5 witness: the amended statement instantiated on connected handles with
the driver reporting the not-found sentinel (and a successful decode for the
mongo-driver version). -/
theorem claim5_notfound_witness :
    (V2.FindWithQuery dbV2Conn "coll" (some (GoErr.driver "boom"))).err
        = some (GoErr.driver "boom")
    ∧ ((V2.FindByID dbV2Conn "coll" (some V2.qmgoErrNoSuchDocuments)).retBool = some false
        ↔ (some V2.qmgoErrNoSuchDocuments : Option GoErr) = some V2.qmgoErrNoSuchDocuments)
    ∧ ((V3.FindByID dbV3Sick "coll" none none).retBool = some true
        ↔ ((none : Option GoErr) ≠ some V3.mongoErrNoDocuments
            ∧ (none : Option GoErr) = none)) :=
  ⟨claim5_notfound_amended.2.1 dbV2Conn "coll" (some (GoErr.driver "boom")) (by decide),
   claim5_notfound_amended.2.2.1 dbV2Conn "coll" (some V2.qmgoErrNoSuchDocuments) (by decide),
   claim5_notfound_amended.2.2.2 dbV3Sick clientSick "coll" none none rfl (by decide)⟩

/-- C6 (code bug): `UpsertMulti` swallows driver failures.  With equal-length
slices and a failing per-document upsert, the mgo version performs the upsert
(the trace records the driver's error) and still returns nil — the in-code
TODO notes the unchecked return value; the mongo-driver version keeps only
the last iteration's error, so an earlier failure followed by a success also
yields nil. -/
theorem claim6_upsertMulti_swallows_errors :
    V1.UpsertMulti dbV1Conn "coll" ["a"] ["v"] drvUpsertFail
      = (GoResult.ret none,
         [Ev.call (Call.upsert "coll" 0) (some (GoErr.driver "upsert failed"))])
    ∧ V3.UpsertMulti dbV3Sick "coll" ["a", "b"] ["v", "w"] drvFirstFails
      = { err := none, calls := [Call.updateOne "coll", Call.updateOne "coll"] } := by
  refine ⟨by decide, by decide⟩

/-- C7 counterexample: `RemoveWithIDs` in the mongo-driver version performs
no sequence validation — given a plain string instead of a slice of ids it
still issues the `DeleteMany` driver call and returns neither
`ErrInterfaceSlice` nor `ErrInterfaceIsNil`. -/
theorem claim7_validation_counterexample :
    (V3.RemoveWithIDs dbV3Sick "coll" (GoValue.str "not-a-slice") none).calls
        = [Call.deleteMany "coll"]
    ∧ (V3.RemoveWithIDs dbV3Sick "coll" (GoValue.str "not-a-slice") none).err
        ≠ some ErrInterfaceSlice
    ∧ (V3.RemoveWithIDs dbV3Sick "coll" (GoValue.str "not-a-slice") none).err
        ≠ some ErrInterfaceIsNil := by
  refine ⟨by decide, by decide, by decide⟩

/-- C7 (amended): `toSlice` classifies its argument (non-slice →
`ErrInterfaceSlice`, nil slice → `ErrInterfaceIsNil`, proper slice → its
elements), and of the bulk helpers only the mongo-driver `Insert` uses it —
on a nil variadic slice it returns `ErrInterfaceIsNil` with no driver call,
and on a proper slice it delegates; `RemoveWithIDs` performs no validation
and always delegates the supplied ids to the driver. -/
theorem claim7_validation_amended :
    (∀ s, V3.toSlice (GoValue.str s) = Except.error ErrInterfaceSlice)
    ∧ (∀ n, V3.toSlice (GoValue.intVal n) = Except.error ErrInterfaceSlice)
    ∧ V3.toSlice GoValue.nilInterface = Except.error ErrInterfaceSlice
    ∧ V3.toSlice (GoValue.slice none) = Except.error ErrInterfaceIsNil
    ∧ (∀ xs, V3.toSlice (GoValue.slice (some xs)) = Except.ok xs)
    ∧ (∀ (db : V3.MongoDb) (c : V3.Client) (coll : String) (e : Option GoErr),
        db.client = some c → c.pingError ≠ none →
          V3.Insert db coll none e = { err := some ErrInterfaceIsNil }
          ∧ (∀ ds, (V3.Insert db coll (some ds) e).calls = [Call.insertMany coll]
              ∧ (V3.Insert db coll (some ds) e).err = e))
    ∧ (∀ (db : V3.MongoDb) (c : V3.Client) (coll : String) (ids : GoValue)
          (e : Option GoErr),
        db.client = some c → c.pingError ≠ none →
          (V3.RemoveWithIDs db coll ids e).calls = [Call.deleteMany coll]
          ∧ (V3.RemoveWithIDs db coll ids e).err = e) := by
  refine ⟨fun s => rfl, fun n => rfl, rfl, rfl, fun xs => rfl, ?_, ?_⟩
  · intro db c coll e h hp
    refine ⟨?_, ?_⟩
    · simp [V3.Insert, h, hp, V3.toSlice]
    · intro ds
      constructor <;> simp [V3.Insert, h, hp, V3.toSlice]
  · intro db c coll ids e h hp
    constructor <;> simp [V3.RemoveWithIDs, h, hp]

/-- C7 witness: the amended statement instantiated at a handle passing the
connectivity guard, with a nil and a proper document slice and a non-slice
ids argument. -/
theorem claim7_validation_witness :
    V3.Insert dbV3Sick "coll" none none = { err := some ErrInterfaceIsNil }
    ∧ (V3.RemoveWithIDs dbV3Sick "coll" (GoValue.intVal 3) none).calls
        = [Call.deleteMany "coll"] :=
  ⟨(claim7_validation_amended.2.2.2.2.2.1 dbV3Sick clientSick "coll" none rfl
      (by decide)).1,
   (claim7_validation_amended.2.2.2.2.2.2 dbV3Sick clientSick "coll"
      (GoValue.intVal 3) none rfl (by decide)).1⟩

/-- C8 counterexample: `Remove` in the qmgo version does not derive a bounded
context at all — its driver call runs on `context.Background()`. -/
theorem claim8_ctx_timeout_counterexample :
    (V2.Remove dbV2Conn "coll" none).ctxTimeout = none
    ∧ (V2.Remove dbV2Conn "coll" none).calls = [Call.removeAll "coll"] := by
  refine ⟨by decide, by decide⟩

/-- C8 (amended): in the qmgo version, every operation that derives a bounded
context uses exactly the configured query timeout `db.maxTimeMS`, except the
combined count-plus-fetch operation `FindWithQuerySortLimitOffsetTotalAll`,
whose context timeout is exactly `db.maxTimeMS * 2`, and except `Remove`,
which derives no bounded context and calls the driver on the unbounded
background context. -/
theorem claim8_ctx_timeout_amended :
    ∀ db : V2.MongoDb, V2.IsConnected db = true →
    ∀ (coll : String) (e : Option GoErr) (total : Bool) (id v : List String),
      id.length = v.length →
      (V2.Insert db coll e).ctxTimeout = some db.maxTimeMS
      ∧ (V2.InsertMany db coll e).ctxTimeout = some db.maxTimeMS
      ∧ (V2.InsertBulk db coll e).ctxTimeout = some db.maxTimeMS
      ∧ (V2.Find db coll e).ctxTimeout = some db.maxTimeMS
      ∧ (V2.Pipe db coll e).ctxTimeout = some db.maxTimeMS
      ∧ (V2.PipeOne db coll e).ctxTimeout = some db.maxTimeMS
      ∧ (V2.FindByID db coll e).ctxTimeout = some db.maxTimeMS
      ∧ (V2.FindAll db coll e).ctxTimeout = some db.maxTimeMS
      ∧ (V2.FindWithSelectAll db coll e).ctxTimeout = some db.maxTimeMS
      ∧ (V2.FindWithQuery db coll e).ctxTimeout = some db.maxTimeMS
      ∧ (V2.FindWithQuerySortOne db coll e).ctxTimeout = some db.maxTimeMS
      ∧ (V2.FindWithQuerySortAll db coll e).ctxTimeout = some db.maxTimeMS
      ∧ (V2.FindWithQuerySortLimitAll db coll e).ctxTimeout = some db.maxTimeMS
      ∧ (V2.FindWithQueryOne db coll e).ctxTimeout = some db.maxTimeMS
      ∧ (V2.FindWithQueryAll db coll e).ctxTimeout = some db.maxTimeMS
      ∧ (V2.FindWithQuerySortLimitOffsetAll db coll e).ctxTimeout = some db.maxTimeMS
      ∧ (V2.FindWithQuerySortLimitOffsetTotalAll db coll total e).ctxTimeout
          = some (db.maxTimeMS * 2)
      ∧ (V2.Count db coll e).ctxTimeout = some db.maxTimeMS
      ∧ (V2.Update db coll e).ctxTimeout = some db.maxTimeMS
      ∧ (V2.UpdateWithQuery db coll e).ctxTimeout = some db.maxTimeMS
      ∧ (V2.UpdateWithQueryAll db coll e).ctxTimeout = some db.maxTimeMS
      ∧ (V2.Upsert db coll e).ctxTimeout = some db.maxTimeMS
      ∧ (V2.UpsertWithQuery db coll e).ctxTimeout = some db.maxTimeMS
      ∧ (V2.UpsertMulti db coll id v).ctxTimeout = some db.maxTimeMS
      ∧ (V2.RemoveAll db coll e).ctxTimeout = some db.maxTimeMS
      ∧ (V2.RemoveWithQuery db coll e).ctxTimeout = some db.maxTimeMS
      ∧ (V2.RemoveWithIDs db coll e).ctxTimeout = some db.maxTimeMS
      ∧ (V2.Remove db coll e).ctxTimeout = none
      ∧ (V2.Remove db coll e).calls = [Call.removeAll coll] := by
  intro db h coll e total id v hlen
  obtain ⟨c, hc⟩ : ∃ c, db.client = some c := by
    cases hcl : db.client with
    | none => rw [V2.IsConnected, hcl] at h; simp at h
    | some c => exact ⟨c, rfl⟩
  simp [V2.Insert, V2.InsertMany, V2.InsertBulk, V2.Find, V2.Pipe, V2.PipeOne,
    V2.FindByID, V2.FindAll, V2.FindWithSelectAll, V2.FindWithQuery,
    V2.FindWithQuerySortOne, V2.FindWithQuerySortAll, V2.FindWithQuerySortLimitAll,
    V2.FindWithQueryOne, V2.FindWithQueryAll, V2.FindWithQuerySortLimitOffsetAll,
    V2.FindWithQuerySortLimitOffsetTotalAll, V2.Count, V2.Update,
    V2.UpdateWithQuery, V2.UpdateWithQueryAll, V2.Upsert, V2.UpsertWithQuery,
    V2.UpsertMulti, V2.RemoveAll, V2.RemoveWithQuery, V2.RemoveWithIDs,
    V2.Remove, h, hlen, hc]

/-- C8 witness: the amended statement instantiated at a connected handle with
equal-length upsert slices. -/
theorem claim8_ctx_timeout_witness :
    (V2.Insert dbV2Conn "coll" none).ctxTimeout = some dbV2Conn.maxTimeMS
    ∧ (V2.InsertMany dbV2Conn "coll" none).ctxTimeout = some dbV2Conn.maxTimeMS
    ∧ (V2.InsertBulk dbV2Conn "coll" none).ctxTimeout = some dbV2Conn.maxTimeMS
    ∧ (V2.Find dbV2Conn "coll" none).ctxTimeout = some dbV2Conn.maxTimeMS
    ∧ (V2.Pipe dbV2Conn "coll" none).ctxTimeout = some dbV2Conn.maxTimeMS
    ∧ (V2.PipeOne dbV2Conn "coll" none).ctxTimeout = some dbV2Conn.maxTimeMS
    ∧ (V2.FindByID dbV2Conn "coll" none).ctxTimeout = some dbV2Conn.maxTimeMS
    ∧ (V2.FindAll dbV2Conn "coll" none).ctxTimeout = some dbV2Conn.maxTimeMS
    ∧ (V2.FindWithSelectAll dbV2Conn "coll" none).ctxTimeout = some dbV2Conn.maxTimeMS
    ∧ (V2.FindWithQuery dbV2Conn "coll" none).ctxTimeout = some dbV2Conn.maxTimeMS
    ∧ (V2.FindWithQuerySortOne dbV2Conn "coll" none).ctxTimeout = some dbV2Conn.maxTimeMS
    ∧ (V2.FindWithQuerySortAll dbV2Conn "coll" none).ctxTimeout = some dbV2Conn.maxTimeMS
    ∧ (V2.FindWithQuerySortLimitAll dbV2Conn "coll" none).ctxTimeout
        = some dbV2Conn.maxTimeMS
    ∧ (V2.FindWithQueryOne dbV2Conn "coll" none).ctxTimeout = some dbV2Conn.maxTimeMS
    ∧ (V2.FindWithQueryAll dbV2Conn "coll" none).ctxTimeout = some dbV2Conn.maxTimeMS
    ∧ (V2.FindWithQuerySortLimitOffsetAll dbV2Conn "coll" none).ctxTimeout
        = some dbV2Conn.maxTimeMS
    ∧ (V2.FindWithQuerySortLimitOffsetTotalAll dbV2Conn "coll" true none).ctxTimeout
        = some (dbV2Conn.maxTimeMS * 2)
    ∧ (V2.Count dbV2Conn "coll" none).ctxTimeout = some dbV2Conn.maxTimeMS
    ∧ (V2.Update dbV2Conn "coll" none).ctxTimeout = some dbV2Conn.maxTimeMS
    ∧ (V2.UpdateWithQuery dbV2Conn "coll" none).ctxTimeout = some dbV2Conn.maxTimeMS
    ∧ (V2.UpdateWithQueryAll dbV2Conn "coll" none).ctxTimeout = some dbV2Conn.maxTimeMS
    ∧ (V2.Upsert dbV2Conn "coll" none).ctxTimeout = some dbV2Conn.maxTimeMS
    ∧ (V2.UpsertWithQuery dbV2Conn "coll" none).ctxTimeout = some dbV2Conn.maxTimeMS
    ∧ (V2.UpsertMulti dbV2Conn "coll" ["a"] ["v"]).ctxTimeout = some dbV2Conn.maxTimeMS
    ∧ (V2.RemoveAll dbV2Conn "coll" none).ctxTimeout = some dbV2Conn.maxTimeMS
    ∧ (V2.RemoveWithQuery dbV2Conn "coll" none).ctxTimeout = some dbV2Conn.maxTimeMS
    ∧ (V2.RemoveWithIDs dbV2Conn "coll" none).ctxTimeout = some dbV2Conn.maxTimeMS
    ∧ (V2.Remove dbV2Conn "coll" none).ctxTimeout = none
    ∧ (V2.Remove dbV2Conn "coll" none).calls = [Call.removeAll "coll"] :=
  claim8_ctx_timeout_amended dbV2Conn (by decide) "coll" none true ["a"] ["v"] rfl

/-- C9 counterexample: `Find` reads the `maxTimeMS` field (for `SetMaxTime`)
while holding no lock — its event trace contains the read but no read-lock
acquisition, refuting the claimed reader side of the lock discipline. -/
theorem claim9_lock_counterexample :
    Ev.readMaxTime ∈ (V1.Find dbV1Conn "coll" drv0).2
    ∧ Ev.rlock ∉ (V1.Find dbV1Conn "coll" drv0).2 := by
  refine ⟨by decide, by decide⟩

/-- C9 (amended): `SetMaxTimeMS` performs its write of `maxTimeMS` between
taking and releasing the exclusive lock, but operations read `maxTimeMS`
without acquiring the read lock, so only the writer side of the stated
reader/writer discipline holds — reads of the timeout are unsynchronized. -/
theorem claim9_lock_amended :
    (∀ (db : V1.MongoDb) (d : Int),
       V1.SetMaxTimeMS db d
         = ({ db with maxTimeMS := d }, [Ev.lock, Ev.writeMaxTime d, Ev.unlock]))
    ∧ (∀ (db : V1.MongoDb) (coll : String) (drv : V1.Driver),
        V1.IsConnected db = true →
          Ev.readMaxTime ∈ (V1.Find db coll drv).2
          ∧ Ev.rlock ∉ (V1.Find db coll drv).2
          ∧ Ev.runlock ∉ (V1.Find db coll drv).2) := by
  refine ⟨fun db d => rfl, ?_⟩
  intro db coll drv h
  simp [V1.Find, h]

/-- C9 witness: the amended statement instantiated at a connected handle. -/
theorem claim9_lock_witness :
    Ev.readMaxTime ∈ (V1.Find dbV1Conn "c" drv0).2
    ∧ Ev.rlock ∉ (V1.Find dbV1Conn "c" drv0).2
    ∧ Ev.runlock ∉ (V1.Find dbV1Conn "c" drv0).2 :=
  claim9_lock_amended.2 dbV1Conn "c" drv0 (by decide)

/-- C10: `ConnectWithTimeout` silently replaces every timeout below one
second by the default 15-second connection timeout before dialing, and uses
the supplied timeout unchanged when it is at least one second — in the mgo
version (the timeout passed to `mgo.DialWithTimeout`) and in the mongo-driver
version (the connect timeout stored in the combined client options). -/
theorem claim10_connect_timeout :
    ∀ (db : V1.MongoDb) (dsn : String) (t : Int) (res : Option V1.Session)
      (mode : ReadPrefMode),
      (t < second →
         (V1.ConnectWithTimeout db dsn t res).2.2 = mongoConnectionTimeout
         ∧ (V3.ConnectWithTimeout dsn t mode).cell.connectTimeoutMS
             = some mongoConnectionTimeout)
      ∧ (second ≤ t →
         (V1.ConnectWithTimeout db dsn t res).2.2 = t
         ∧ (V3.ConnectWithTimeout dsn t mode).cell.connectTimeoutMS = some t) := by
  intro db dsn t res mode
  constructor
  · intro h
    constructor
    · simp [V1.ConnectWithTimeout, h]
    · simp [V3.ConnectWithTimeout, h, Combine_eq, applyCells, SetUri, SetTimeout,
        SetPreferred, SetMaxPoolSize, newOptions]
  · intro h
    have h2 : ¬ t < second := not_lt.mpr h
    constructor
    · simp [V1.ConnectWithTimeout, h2]
    · simp [V3.ConnectWithTimeout, h2, Combine_eq, applyCells, SetUri, SetTimeout,
        SetPreferred, SetMaxPoolSize, newOptions]

/-- C10 witness: the timeout replacement at a zero timeout and the unchanged
pass-through at exactly one second. -/
theorem claim10_connect_timeout_witness :
    (V1.ConnectWithTimeout dbV1None "dsn" 0 none).2.2 = mongoConnectionTimeout
    ∧ (V1.ConnectWithTimeout dbV1None "dsn" second none).2.2 = second
    ∧ (V3.ConnectWithTimeout "dsn" 0 ReadPrefMode.primary).cell.connectTimeoutMS
        = some mongoConnectionTimeout :=
  ⟨((claim10_connect_timeout dbV1None "dsn" 0 none ReadPrefMode.primary).1 (by decide)).1,
   ((claim10_connect_timeout dbV1None "dsn" second none ReadPrefMode.primary).2
      (by decide)).1,
   ((claim10_connect_timeout dbV1None "dsn" 0 none ReadPrefMode.primary).1 (by decide)).2⟩

end Libmongo
